import Mathlib

/-!
Formal model of the Pingdom GitOps reconciler (`src/pingdom.py`).

Python dictionaries are modelled as association lists over a YAML-like value
type, the stateful `Pingdom` object as explicit state passing, and the HTTP
transport as an oracle/response argument.  Fallible operations return
`Except String`, with the Python exception message as the payload.
-/

namespace Pingdom

/-- A YAML scalar value as it occurs in the configuration document. -/
inductive Scalar where
  | str : String → Scalar
  | int : Int → Scalar
deriving DecidableEq, Repr

/-- A YAML field value: a scalar or a sequence of scalars.  This covers the
data model of the program (fields are scalars or sequences of names). -/
inductive Val where
  | scalar : Scalar → Val
  | list : List Scalar → Val
deriving DecidableEq, Repr

/-- A Python `dict` modelled as an association list: insertion order is
preserved, and keys are unique in dictionaries produced by YAML loading. -/
abbrev Dict := List (String × Val)

/-- `d[key]`: the first binding of `key`. -/
def dlookup : Dict → String → Option Val
  | [], _ => none
  | (k, v) :: rest, key => if k = key then some v else dlookup rest key

/-- `key in d`. -/
def dcontains (d : Dict) (key : String) : Bool :=
  (dlookup d key).isSome

/-- `d[key] = v`: replace the binding in place when present, otherwise append
(Python dict assignment preserves the position of an existing key). -/
def dinsert : Dict → String → Val → Dict
  | [], key, v => [(key, v)]
  | (k, w) :: rest, key, v =>
      if k = key then (k, v) :: rest else (k, w) :: dinsert rest key v

/-- `del d[key]` (removes every binding of `key`; identical to the Python
single-binding delete on dictionaries with unique keys). -/
def derase : Dict → String → Dict
  | [], _ => []
  | (k, w) :: rest, key =>
      if k = key then derase rest key else (k, w) :: derase rest key

theorem dlookup_dinsert_self (d : Dict) (k : String) (v : Val) :
    dlookup (dinsert d k v) k = some v := by
  induction d with
  | nil => simp [dinsert, dlookup]
  | cons hd tl ih =>
      obtain ⟨k0, w0⟩ := hd
      by_cases h : k0 = k
      · simp [dinsert, dlookup, h]
      · simp [dinsert, dlookup, h, ih]

theorem dlookup_dinsert_ne (d : Dict) (k k' : String) (v : Val) (h : k' ≠ k) :
    dlookup (dinsert d k v) k' = dlookup d k' := by
  have h' : ¬k = k' := fun hh => h hh.symm
  induction d with
  | nil => simp [dinsert, dlookup, h']
  | cons hd tl ih =>
      obtain ⟨k0, w0⟩ := hd
      by_cases h0 : k0 = k
      · subst h0
        simp [dinsert, dlookup, h']
      · simp [dinsert, dlookup, h0, ih]

theorem dcontains_dinsert_self (d : Dict) (k : String) (v : Val) :
    dcontains (dinsert d k v) k = true := by
  simp [dcontains, dlookup_dinsert_self]

theorem dcontains_dinsert_ne (d : Dict) (k k' : String) (v : Val) (h : k' ≠ k) :
    dcontains (dinsert d k v) k' = dcontains d k' := by
  simp [dcontains, dlookup_dinsert_ne d k k' v h]

theorem dlookup_derase_self (d : Dict) (k : String) :
    dlookup (derase d k) k = none := by
  induction d with
  | nil => simp [derase, dlookup]
  | cons hd tl ih =>
      obtain ⟨k0, w0⟩ := hd
      by_cases h : k0 = k
      · simp [derase, h, ih]
      · simp [derase, dlookup, h, ih]

theorem dlookup_derase_ne (d : Dict) (k k' : String) (h : k' ≠ k) :
    dlookup (derase d k) k' = dlookup d k' := by
  induction d with
  | nil => simp [derase]
  | cons hd tl ih =>
      obtain ⟨k0, w0⟩ := hd
      by_cases h0 : k0 = k
      · subst h0
        have h' : ¬k0 = k' := fun hh => h hh.symm
        simp [derase, dlookup, h', ih]
      · simp [derase, dlookup, h0, ih]

theorem dcontains_derase_self (d : Dict) (k : String) :
    dcontains (derase d k) k = false := by
  simp [dcontains, dlookup_derase_self]

theorem derase_derase (d : Dict) (k : String) :
    derase (derase d k) k = derase d k := by
  induction d with
  | nil => simp [derase]
  | cons hd tl ih =>
      obtain ⟨k0, w0⟩ := hd
      by_cases h : k0 = k
      · simp [derase, h, ih]
      · simp [derase, h, ih]

/-! ## Default merging (`src/pingdom.py` lines 341-346 and 401-406) -/

/-- `for key, value in default.items(): if key not in check: check[key] = value`.
The membership test is against the evolving dictionary, as in the in-place
Python loop. -/
def applyDefaults (check : Dict) (dflt : Dict) : Dict :=
  dflt.foldl (fun c kv => if dcontains c kv.1 then c else dinsert c kv.1 kv.2) check

/-- The merge step guarded by the optional `pingdom.default` record. -/
def mergeD (dflt : Option Dict) (check : Dict) : Dict :=
  match dflt with
  | some d => applyDefaults check d
  | none => check

theorem applyDefaults_cons (c : Dict) (kv : String × Val) (rest : List (String × Val)) :
    applyDefaults c (kv :: rest)
      = applyDefaults (if dcontains c kv.1 then c else dinsert c kv.1 kv.2) rest := by
  simp [applyDefaults]

theorem dcontains_dinsert_mono (d : Dict) (k k' : String) (v : Val)
    (h : dcontains d k' = true) :
    dcontains (dinsert d k v) k' = true := by
  by_cases hk : k' = k
  · subst hk; exact dcontains_dinsert_self d k' v
  · rw [dcontains_dinsert_ne d k k' v hk]; exact h

theorem dcontains_applyDefaults_mono (d : Dict) (c : Dict) (k : String)
    (h : dcontains c k = true) :
    dcontains (applyDefaults c d) k = true := by
  induction d generalizing c with
  | nil => simpa [applyDefaults] using h
  | cons kv rest ih =>
      rw [applyDefaults_cons]
      by_cases hc : dcontains c kv.1 = true
      · rw [if_pos hc]; exact ih c h
      · rw [if_neg hc]; exact ih _ (dcontains_dinsert_mono c kv.1 k kv.2 h)

theorem dcontains_applyDefaults_of_mem (d : Dict) (c : Dict) (kv : String × Val)
    (h : kv ∈ d) :
    dcontains (applyDefaults c d) kv.1 = true := by
  induction d generalizing c with
  | nil => cases h
  | cons kv0 rest ih =>
      rw [applyDefaults_cons]
      cases h with
      | head =>
          by_cases hc : dcontains c kv.1 = true
          · rw [if_pos hc]; exact dcontains_applyDefaults_mono rest c kv.1 hc
          · rw [if_neg hc]
            exact dcontains_applyDefaults_mono rest _ kv.1 (dcontains_dinsert_self c kv.1 kv.2)
      | tail _ h => exact ih _ h

theorem applyDefaults_of_contains (d : Dict) (c : Dict)
    (h : ∀ kv ∈ d, dcontains c kv.1 = true) :
    applyDefaults c d = c := by
  induction d generalizing c with
  | nil => simp [applyDefaults]
  | cons kv rest ih =>
      rw [applyDefaults_cons, if_pos (h kv (List.mem_cons_self _ _))]
      exact ih c (fun kv' h' => h kv' (List.mem_cons_of_mem _ h'))

theorem applyDefaults_idem (c d : Dict) :
    applyDefaults (applyDefaults c d) d = applyDefaults c d :=
  applyDefaults_of_contains d _ (fun kv h => dcontains_applyDefaults_of_mem d c kv h)

theorem dlookup_applyDefaults_of_contains (d : Dict) (c : Dict) (k : String)
    (h : dcontains c k = true) :
    dlookup (applyDefaults c d) k = dlookup c k := by
  induction d generalizing c with
  | nil => simp [applyDefaults]
  | cons kv rest ih =>
      rw [applyDefaults_cons]
      by_cases hc : dcontains c kv.1 = true
      · rw [if_pos hc]; exact ih c h
      · rw [if_neg hc]
        have hne : k ≠ kv.1 := by
          intro he; subst he; exact hc h
        rw [ih _ (dcontains_dinsert_mono c kv.1 k kv.2 h),
          dlookup_dinsert_ne c kv.1 k kv.2 hne]

/-! ## Remote checks and the matcher (`find_matching_checks`, lines 93-151) -/

/-- A tag object as returned by the check-detail endpoint (`{name: ...}`). -/
structure RCTag where
  name : String
deriving DecidableEq, Repr

/-- A remote check as consumed by the matcher.  List entries carry optional
`host`/`hostname` string fields (`none` when the field is absent; a
non-string value compares unequal to every query string, so it behaves like
an absent field for matching).  The detail record fetched from
`GET /checks/{id}` optionally carries a tag list; it is embedded here because
a non-200 detail response raises and aborts the whole run before any of the
behaviour settled below. -/
structure RemoteCheck where
  id : Nat
  host? : Option String
  hostname? : Option String
  detailTags? : Option (List RCTag)
deriving DecidableEq, Repr

/-- `str(host).lower()`: lower-casing of the query host (line 107). -/
def lowerStr (s : String) : String :=
  String.mk (s.data.map Char.toLower)

/-- The host-candidate scan (lines 110-117): one pass over the check list,
appending the check once for a `host` hit and once more for a `hostname`
hit, comparing the unmodified remote value with the lowered query. -/
def hostFilter (host : String) : List RemoteCheck → List RemoteCheck
  | [] => []
  | c :: rest =>
      ((if c.host? = some host then [c] else []) ++
        (if c.hostname? = some host then [c] else [])) ++ hostFilter host rest

/-- The nested tag-counting loops (lines 143-146): one hit per
(detail-tag, requested-tag) pair with equal names. -/
def tagMatchCount (detailTags : List RCTag) (tags : List String) : Nat :=
  detailTags.foldl (fun n t => n + (tags.filter (fun tc => t.name = tc)).length) 0

/-- Lines 139-149: a candidate without a `tags` field in its detail record is
skipped; otherwise it matches when the pair count equals the number of
requested tags. -/
def matchesTags (tags : List String) (c : RemoteCheck) : Bool :=
  match c.detailTags? with
  | none => false
  | some dts => tagMatchCount dts tags == tags.length

/-- `find_matching_checks` (lines 93-151), with the remote check list (the
successfully fetched `get_checks()` result) passed explicitly. -/
def find_matching_checks (host : String) (tags : Option (List String))
    (checks : List RemoteCheck) : List RemoteCheck :=
  let host := lowerStr host
  let found := hostFilter host checks
  if found.length = 0 then []
  else
    match tags with
    | none => found
    | some ts =>
        if ts.length = 0 then found
        else found.filter (matchesTags ts)

/-! ## `get_checks` (lines 28-54): cached directory listing -/

/-- The mutable `Pingdom` instance state: `self.__get_checks_cache__`. -/
structure PingdomState where
  get_checks_cache : Option (List RemoteCheck)
deriving DecidableEq, Repr

/-- The transport's answer to `GET /checks`: an HTTP status, the optional
`checks` field of the parsed JSON body, and the raw content used as the
exception payload on failure. -/
structure ChecksResponse where
  status : Nat
  body : Option (List RemoteCheck)
  content : String
deriving DecidableEq, Repr

/-- `get_checks` (lines 28-54).  Returns the result, the instance state after
the call, and the number of transport calls issued. -/
def get_checks (cacheFlag : Bool) (resp : ChecksResponse) (st : PingdomState) :
    Except String (List RemoteCheck) × PingdomState × Nat :=
  match cacheFlag, st.get_checks_cache with
  | true, some cached => (Except.ok cached, st, 0)
  | _, _ =>
      if resp.status ≠ 200 then (Except.error resp.content, st, 1)
      else
        let checks := resp.body.getD []
        (Except.ok checks, { get_checks_cache := some checks }, 1)

/-! ## `update_check` (lines 71-91) -/

/-- The observable outcome of `update_check`: the URL and body of the PUT
request, the caller's configuration dictionary after the call (the `del`
mutates it in place before the request is issued), and the result. -/
structure UpdateOutcome where
  url : String
  body : Dict
  config : Dict
  result : Except String Unit
deriving Repr

/-- `update_check` (lines 71-91): `type` is removed from the supplied
configuration (a no-op when absent, exactly as the guarded `del`), the PUT
is issued with the mutated dictionary, and a non-200 status raises with the
response content. -/
def update_check (check_id : Nat) (configuration : Dict)
    (respStatus : Nat) (respContent : String) : UpdateOutcome :=
  let configuration := derase configuration "type"
  { url := "/checks/" ++ toString check_id
    body := configuration
    config := configuration
    result := if respStatus ≠ 200 then Except.error respContent else Except.ok () }

/-! ## Identity resolution (lines 408-429) -/

/-- Python `str.rstrip(',')`: drop every trailing comma. -/
def rstripComma (s : String) : String :=
  String.mk ((s.data.reverse.dropWhile (fun c => c = ',')).reverse)

/-- `'{x},'.format(x=...)` of a scalar: Python renders strings as-is and
integers in decimal. -/
def Scalar.fmt : Scalar → String
  | .str s => s
  | .int n => toString n

/-- The elements iterated by `for x in check[field]`: a list yields its
elements and a string yields its characters, as in Python; iterating an
integer raises a `TypeError`, modelled as `none`.  The validator checks that
`teamids`/`integrationids` are lists when present, but it never inspects
`tags`, so for `tags` this error path is reachable even for validated
documents; it is threaded through resolution and the reconciler below. -/
def Val.elems : Val → Option (List Scalar)
  | .list l => some l
  | .scalar (.str s) => some (s.data.map (fun c => Scalar.str (String.mk [c])))
  | .scalar (.int _) => none

/-- The message of the `TypeError` raised by iterating an integer field. -/
def typeErrorNotIterable : String := "TypeError: argument of type int is not iterable"

/-- Lines 411-415: `tag_csv = '{tag},'`, then one `'{t},'` appended per
declared tag, then `rstrip(',')`. -/
def tagsCsv (tag : String) (tags : List Scalar) : String :=
  rstripComma (tags.foldl (fun acc t => acc ++ Scalar.fmt t ++ ",") (tag ++ ","))

/-- A team/integration table: configuration-local name to numeric id. -/
def tlookup : List (String × Int) → String → Option Int
  | [], _ => none
  | (k, v) :: rest, key => if k = key then some v else tlookup rest key

/-- `'{k},'.format(k=table[name])` for one referenced name.  A name missing
from the table raises a `KeyError` in Python; that never happens for
documents accepted by the validator, and is modelled as the empty string. -/
def resolveId (table : List (String × Int)) (k : Scalar) : String :=
  match k with
  | .str s =>
      match tlookup table s with
      | some n => toString n
      | none => ""
  | .int _ => ""

/-- Lines 418-429: build the comma-joined id string, then `rstrip(',')`. -/
def idsCsv (table : List (String × Int)) (ks : List Scalar) : String :=
  rstripComma (ks.foldl (fun acc k => acc ++ resolveId table k ++ ",") "")

/-- Lines 411-415: when `tags` is present, prepend the reconciliation tag and
store the comma-joined string back into the check; iterating a non-iterable
`tags` value raises. -/
def resolveTagsStep (tag : String) (check : Dict) : Except String Dict :=
  match dlookup check "tags" with
  | some v =>
      match v.elems with
      | some ts =>
          Except.ok (dinsert check "tags" (Val.scalar (Scalar.str (tagsCsv tag ts))))
      | none => Except.error typeErrorNotIterable
  | none => Except.ok check

/-- Lines 418-422 and 425-429: when the reference field is present, store the
comma-joined resolved-id string back into the check; iterating a
non-iterable value raises (unreachable after validation, which requires
these two fields to be lists when present). -/
def resolveIdsStep (fieldName : String) (table : List (String × Int))
    (check : Dict) : Except String Dict :=
  match dlookup check fieldName with
  | some v =>
      match v.elems with
      | some ks =>
          Except.ok (dinsert check fieldName (Val.scalar (Scalar.str (idsCsv table ks))))
      | none => Except.error typeErrorNotIterable
  | none => Except.ok check

/-- Identity resolution for one check (lines 410-429): rewrite `tags`, then
`teamids`, then `integrationids` in place when present; the first raised
`TypeError` propagates. -/
def resolveCheck (tag : String) (teams integrations : List (String × Int))
    (check : Dict) : Except String Dict :=
  match resolveTagsStep tag check with
  | Except.error e => Except.error e
  | Except.ok check =>
      match resolveIdsStep "teamids" teams check with
      | Except.error e => Except.error e
      | Except.ok check => resolveIdsStep "integrationids" integrations check

/-! ## Per-check validation (`validate_configuration_yaml`, lines 341-379)

The document-level stages of `validate_configuration_yaml` (the `gitops`
marker, the presence and types of the `pingdom` section and of the
`teams`/`integrations`/`checks`/`default` entries) check the raw YAML shape
that the typed arguments below already have; the per-check loop
(lines 341-379) is embedded here. -/

/-- One round of lines 352-356 for a mandatory parameter. -/
def validateMandatoryParam (check : Dict) (p : String) : Except String Unit :=
  match dlookup check p with
  | none =>
      Except.error
        ("Configuration Error: Could not locate mandatory `" ++ p ++ "` value in check")
  | some (Val.scalar (Scalar.str _)) => Except.ok ()
  | some _ =>
      Except.error
        ("Configuration Error: Invalid data type `" ++ p ++ "` in check, expected string value")

/-- `for parameter in ['name', 'host', 'type']` (lines 352-356). -/
def validateMandatory (check : Dict) : Except String Unit :=
  match validateMandatoryParam check "name" with
  | Except.error e => Except.error e
  | Except.ok _ =>
      match validateMandatoryParam check "host" with
      | Except.error e => Except.error e
      | Except.ok _ => validateMandatoryParam check "type"

/-- `team_key in teams` for one referenced name: a non-string element is
never a key of the string-keyed table. -/
def refOk (table : List (String × Int)) (k : Scalar) : Bool :=
  match k with
  | Scalar.str s => (tlookup table s).isSome
  | Scalar.int _ => false

/-- Lines 358-379 for one of the two reference fields: absent is fine, a
non-list value is a type error, and a name outside the table raises the
unknown-reference error (the Python loop raises at the first unknown name;
the message does not depend on which one). -/
def validateRefs (fieldName tableTag : String) (table : List (String × Int))
    (check : Dict) : Except String Unit :=
  match dlookup check fieldName with
  | none => Except.ok ()
  | some (Val.list ks) =>
      if ks.all (fun k => refOk table k) then Except.ok ()
      else
        Except.error
          ("Configuration Error: Unknown `" ++ fieldName ++
            "` name specified in check, ensure ID defined in `pingdom." ++
            tableTag ++ "` tag")
  | some (Val.scalar _) =>
      Except.error
        ("Configuration Error: Invalid data type `" ++ fieldName ++
          "` in check, expected YAML list")

/-- The body of the per-check validation loop (lines 351-379), after the
defaults were merged into the check. -/
def validateCheck (teams integrations : List (String × Int)) (check : Dict) :
    Except String Unit :=
  match validateMandatory check with
  | Except.error e => Except.error e
  | Except.ok _ =>
      match validateRefs "teamids" "teams" teams check with
      | Except.error e => Except.error e
      | Except.ok _ => validateRefs "integrationids" "integrations" integrations check

/-- The per-check validation loop (lines 341-379): merge the defaults into
each check (the Python code mutates the shared dictionaries in place; the
reconciler merges again, which is a no-op by idempotence), then validate it;
the first failure raises. -/
def validateChecks (dflt : Option Dict) (teams integrations : List (String × Int)) :
    List Dict → Except String Unit
  | [] => Except.ok ()
  | c :: rest =>
      match validateCheck teams integrations (mergeD dflt c) with
      | Except.error e => Except.error e
      | Except.ok _ => validateChecks dflt teams integrations rest

/-! ## The reconciler (`process_configuration_yaml`, lines 381-457) -/

/-- A transport operation issued by the reconciler: the endpoint reached and
the configuration body submitted. -/
inductive Op where
  | create (host : String) (body : Dict)
  | update (id : Nat) (host : String) (body : Dict)
deriving DecidableEq, Repr

/-- `host = check['host']` (line 408).  Validation guarantees the merged
check carries a string `host`; any other shape raises in Python and is
unreachable for validated documents. -/
def hostOf (check : Dict) : String :=
  match dlookup check "host" with
  | some (Val.scalar (Scalar.str s)) => s
  | _ => ""

/-- The update loop (lines 443-448) inside its single `try`: each iteration
lets `update_check` delete `type` from the shared dictionary and issue the
PUT; the first transport failure raises out of the loop, so the remaining
matches are not attempted, and the handler sets the error flag (line 454). -/
def updateLoop (oracle : Op → Bool) (host : String) (cfg : Dict) :
    List RemoteCheck → List Op × Bool
  | [] => ([], false)
  | m :: rest =>
      let cfg := derase cfg "type"
      let op := Op.update m.id host cfg
      if oracle op then
        let r := updateLoop oracle host cfg rest
        (op :: r.1, r.2)
      else ([op], true)

/-- One iteration of the reconciliation loop (lines 401-455): merge the
defaults, read the host, resolve identities in place, match under a
singleton tag list holding only the reconciliation tag, then create (zero
matches; a failure is logged and leaves the flag alone, lines 433-441) or
update every match (lines 442-454).  Returns the operations issued and this
check's contribution to the error flag — or the message of a resolution
`TypeError`, which neither `try` block catches. -/
def processCheck (oracle : Op → Bool) (tag : String)
    (teams integrations : List (String × Int)) (dflt : Option Dict)
    (remote : List RemoteCheck) (check : Dict) : Except String (List Op × Bool) :=
  let check := mergeD dflt check
  let host := hostOf check
  match resolveCheck tag teams integrations check with
  | Except.error e => Except.error e
  | Except.ok check =>
      let ms := find_matching_checks host (some [tag]) remote
      if ms.length = 0 then Except.ok ([Op.create host check], false)
      else Except.ok (updateLoop oracle host check ms)

/-- The loop over every declared check, threading the shared error flag
(lines 394-455).  Returns the operations issued and either the final error
flag or the message of an uncaught resolution exception, which aborts the
remaining iterations (nothing in `process_configuration_yaml` catches it). -/
def processRun (oracle : Op → Bool) (tag : String)
    (teams integrations : List (String × Int)) (dflt : Option Dict)
    (remote : List RemoteCheck) : List Dict → List Op × Except String Bool
  | [] => ([], Except.ok false)
  | c :: rest =>
      match processCheck oracle tag teams integrations dflt remote c with
      | Except.error e => ([], Except.error e)
      | Except.ok r =>
          let rr := processRun oracle tag teams integrations dflt remote rest
          (r.1 ++ rr.1,
           match rr.2 with
           | Except.error e => Except.error e
           | Except.ok err => Except.ok (r.2 || err))

/-- The message of the terminal exception (line 457). -/
def aggregateErrorMessage : String :=
  "Update completed with one or more errors- please review logs messages"

/-- `process_configuration_yaml` (lines 381-457).  The result pairs the
transport operations issued with the message the run raises, if any: an
uncaught resolution `TypeError` propagates as-is (line 456 is never
reached), otherwise the aggregate error is raised exactly when the error
flag was set. -/
def process_configuration_yaml (oracle : Op → Bool) (tag : String)
    (teams integrations : List (String × Int)) (dflt : Option Dict)
    (remote : List RemoteCheck) (checks : List Dict) : List Op × Option String :=
  let r := processRun oracle tag teams integrations dflt remote checks
  (r.1,
   match r.2 with
   | Except.error e => some e
   | Except.ok err => if err then some aggregateErrorMessage else none)

/-- A full run's input: the configuration document (already through the
document-level shape checks), the remote directory, and the transport
oracle for create/update calls. -/
structure RunInput where
  tag : String
  teams : List (String × Int)
  integrations : List (String × Int)
  dflt : Option Dict
  checks : List Dict
  remote : List RemoteCheck
  oracle : Op → Bool

/-- The `__main__` flow (lines 492-495): validation runs before the
reconciler, so a validation failure raises before any create/update call. -/
def runMain (inp : RunInput) : List Op × Option String :=
  match validateChecks inp.dflt inp.teams inp.integrations inp.checks with
  | Except.error e => ([], some e)
  | Except.ok _ =>
      process_configuration_yaml inp.oracle inp.tag inp.teams inp.integrations
        inp.dflt inp.remote inp.checks

/-! ## Derived forms of the reconciliation loop used by the claims -/

/-- The merged check a loop iteration works on. -/
def mergedCheck (dflt : Option Dict) (c : Dict) : Dict := mergeD dflt c

/-- The host a declared check is matched under. -/
def checkHost (dflt : Option Dict) (c : Dict) : String := hostOf (mergeD dflt c)

/-- The matches of one declared check under the reconciliation tag. -/
def checkMatches (tag : String) (dflt : Option Dict) (remote : List RemoteCheck)
    (c : Dict) : List RemoteCheck :=
  find_matching_checks (checkHost dflt c) (some [tag]) remote

/-- The body submitted by every update for one declared check: the resolved
check with `type` removed by `update_check`.  Meaningful when resolution
succeeds; on a resolution `TypeError` no create or update is issued at all. -/
def checkUpdateBody (tag : String) (teams integrations : List (String × Int))
    (dflt : Option Dict) (c : Dict) : Dict :=
  match resolveCheck tag teams integrations (mergeD dflt c) with
  | Except.ok rchk => derase rchk "type"
  | Except.error _ => []

/-- The field, when present, is iterable (its Python iteration does not
raise a `TypeError`). -/
def fieldIterable (fieldName : String) (check : Dict) : Bool :=
  match dlookup check fieldName with
  | some v => (Val.elems v).isSome
  | none => true

/-- The identity resolution of this declared check succeeds (no uncaught
`TypeError`). -/
def checkResolves (tag : String) (teams integrations : List (String × Int))
    (dflt : Option Dict) (c : Dict) : Bool :=
  match resolveCheck tag teams integrations (mergeD dflt c) with
  | Except.ok _ => true
  | Except.error _ => false

/-- The operations one declared check contributes when it processes without
an uncaught exception (empty when its resolution raises: the run aborts at
that check before any of its transport calls). -/
def checkOps (oracle : Op → Bool) (tag : String)
    (teams integrations : List (String × Int)) (dflt : Option Dict)
    (remote : List RemoteCheck) (c : Dict) : List Op :=
  match processCheck oracle tag teams integrations dflt remote c with
  | Except.ok r => r.1
  | Except.error _ => []

/-- This declared check's contribution to the error flag (false when its
resolution raises: the flag is never consulted then). -/
def checkErr (oracle : Op → Bool) (tag : String)
    (teams integrations : List (String × Int)) (dflt : Option Dict)
    (remote : List RemoteCheck) (c : Dict) : Bool :=
  match processCheck oracle tag teams integrations dflt remote c with
  | Except.ok r => r.2
  | Except.error _ => false

/-! ## Characterizations of the reconciliation loop -/

theorem dropWhile_isEmpty_eq {α : Type} (p : α → Bool) (l : List α) :
    (l.dropWhile p).isEmpty = !(l.any fun x => !p x) := by
  induction l with
  | nil => rfl
  | cons x xs ih =>
      by_cases h : p x = true <;> simp [List.dropWhile_cons, h, ih]

/-- The update loop issues updates in match order, stops after the first
failing one, and reports whether a failure occurred; every update submits
the same body, the resolved check with `type` removed. -/
theorem updateLoop_eq (oracle : Op → Bool) (host : String) (cfg : Dict)
    (ms : List RemoteCheck) :
    updateLoop oracle host cfg ms
      = (((ms.takeWhile fun m => oracle (Op.update m.id host (derase cfg "type"))) ++
            (ms.dropWhile fun m => oracle (Op.update m.id host (derase cfg "type"))).take 1).map
           (fun m => Op.update m.id host (derase cfg "type")),
         !(ms.dropWhile fun m => oracle (Op.update m.id host (derase cfg "type"))).isEmpty) := by
  induction ms generalizing cfg with
  | nil => simp [updateLoop]
  | cons m rest ih =>
      simp only [updateLoop]
      by_cases h : oracle (Op.update m.id host (derase cfg "type")) = true
      · rw [if_pos h, ih (derase cfg "type")]
        simp [derase_derase, List.takeWhile_cons, List.dropWhile_cons, h]
      · rw [if_neg h]
        simp [List.takeWhile_cons, List.dropWhile_cons, h]

theorem processCheck_eq_of_resolved (oracle : Op → Bool) (tag : String)
    (teams integrations : List (String × Int)) (dflt : Option Dict)
    (remote : List RemoteCheck) (c : Dict) (rchk : Dict)
    (hres : resolveCheck tag teams integrations (mergeD dflt c) = Except.ok rchk) :
    processCheck oracle tag teams integrations dflt remote c
      = Except.ok
          (if (checkMatches tag dflt remote c).length = 0
           then ([Op.create (checkHost dflt c) rchk], false)
           else updateLoop oracle (checkHost dflt c) rchk (checkMatches tag dflt remote c)) := by
  simp only [processCheck, hres, checkMatches, checkHost]
  split <;> rfl

theorem checkOps_eq_of_resolved (oracle : Op → Bool) (tag : String)
    (teams integrations : List (String × Int)) (dflt : Option Dict)
    (remote : List RemoteCheck) (c : Dict) (rchk : Dict)
    (hres : resolveCheck tag teams integrations (mergeD dflt c) = Except.ok rchk) :
    checkOps oracle tag teams integrations dflt remote c
      = (if (checkMatches tag dflt remote c).length = 0
         then [Op.create (checkHost dflt c) rchk]
         else (updateLoop oracle (checkHost dflt c) rchk (checkMatches tag dflt remote c)).1) := by
  unfold checkOps
  rw [processCheck_eq_of_resolved oracle tag teams integrations dflt remote c rchk hres]
  by_cases h0 : (checkMatches tag dflt remote c).length = 0
  · simp [h0]
  · simp [h0]

theorem checkErr_eq_of_resolved (oracle : Op → Bool) (tag : String)
    (teams integrations : List (String × Int)) (dflt : Option Dict)
    (remote : List RemoteCheck) (c : Dict) (rchk : Dict)
    (hres : resolveCheck tag teams integrations (mergeD dflt c) = Except.ok rchk) :
    checkErr oracle tag teams integrations dflt remote c
      = (if (checkMatches tag dflt remote c).length = 0
         then false
         else (updateLoop oracle (checkHost dflt c) rchk (checkMatches tag dflt remote c)).2) := by
  unfold checkErr
  rw [processCheck_eq_of_resolved oracle tag teams integrations dflt remote c rchk hres]
  by_cases h0 : (checkMatches tag dflt remote c).length = 0
  · simp [h0]
  · simp [h0]

theorem checkUpdateBody_eq_of_resolved (tag : String)
    (teams integrations : List (String × Int)) (dflt : Option Dict) (c : Dict)
    (rchk : Dict)
    (hres : resolveCheck tag teams integrations (mergeD dflt c) = Except.ok rchk) :
    checkUpdateBody tag teams integrations dflt c = derase rchk "type" := by
  unfold checkUpdateBody
  rw [hres]

/-- For a declared check whose resolution succeeds, the error-flag
contribution is exactly "some update for some match failed". -/
theorem checkErr_any_of_resolves (oracle : Op → Bool) (tag : String)
    (teams integrations : List (String × Int)) (dflt : Option Dict)
    (remote : List RemoteCheck) (c : Dict)
    (hr : checkResolves tag teams integrations dflt c = true) :
    checkErr oracle tag teams integrations dflt remote c
      = (checkMatches tag dflt remote c).any
          (fun m => !oracle (Op.update m.id (checkHost dflt c)
              (checkUpdateBody tag teams integrations dflt c))) := by
  unfold checkResolves at hr
  cases hres : resolveCheck tag teams integrations (mergeD dflt c) with
  | error e => rw [hres] at hr; simp at hr
  | ok rchk =>
      rw [checkUpdateBody_eq_of_resolved tag teams integrations dflt c rchk hres,
        checkErr_eq_of_resolved oracle tag teams integrations dflt remote c rchk hres]
      by_cases h0 : (checkMatches tag dflt remote c).length = 0
      · rw [if_pos h0, List.length_eq_zero.mp h0, List.any_nil]
      · rw [if_neg h0, updateLoop_eq, dropWhile_isEmpty_eq, Bool.not_not]

theorem processCheck_eq_of_resolves (oracle : Op → Bool) (tag : String)
    (teams integrations : List (String × Int)) (dflt : Option Dict)
    (remote : List RemoteCheck) (c : Dict)
    (hr : checkResolves tag teams integrations dflt c = true) :
    processCheck oracle tag teams integrations dflt remote c
      = Except.ok (checkOps oracle tag teams integrations dflt remote c,
                   checkErr oracle tag teams integrations dflt remote c) := by
  unfold checkResolves at hr
  cases hres : resolveCheck tag teams integrations (mergeD dflt c) with
  | error e => rw [hres] at hr; simp at hr
  | ok rchk =>
      rw [processCheck_eq_of_resolved oracle tag teams integrations dflt remote c rchk hres,
        checkOps_eq_of_resolved oracle tag teams integrations dflt remote c rchk hres,
        checkErr_eq_of_resolved oracle tag teams integrations dflt remote c rchk hres]
      by_cases h0 : (checkMatches tag dflt remote c).length = 0
      · simp [h0]
      · simp [h0]

/-- When every declared check resolves, the run completes: the trace is the
concatenation of every check's operations in document order, and the final
flag is the disjunction of the per-check flags. -/
theorem processRun_eq_of_resolves (oracle : Op → Bool) (tag : String)
    (teams integrations : List (String × Int)) (dflt : Option Dict)
    (remote : List RemoteCheck) (cs : List Dict)
    (hall : cs.all (fun c => checkResolves tag teams integrations dflt c) = true) :
    processRun oracle tag teams integrations dflt remote cs
      = ((cs.map (fun c => checkOps oracle tag teams integrations dflt remote c)).flatten,
         Except.ok (cs.any (fun c => checkErr oracle tag teams integrations dflt remote c))) := by
  revert hall
  induction cs with
  | nil => intro _; rfl
  | cons c rest ih =>
      intro hall
      rw [List.all_cons, Bool.and_eq_true] at hall
      simp only [processRun,
        processCheck_eq_of_resolves oracle tag teams integrations dflt remote c hall.1,
        ih hall.2]
      simp [List.any_cons]

/-! ## Validation and resolution lemmas -/

/-- The bad-reference condition of the claims: the given field is present as
a list and some element is not a key of its table. -/
def unknownRefIn (fieldName : String) (table : List (String × Int)) (check : Dict) : Bool :=
  match dlookup check fieldName with
  | some (Val.list ks) => !(ks.all fun k => refOk table k)
  | _ => false

/-- A check referencing an unknown team or integration name. -/
def hasUnknownRef (teams integrations : List (String × Int)) (check : Dict) : Bool :=
  unknownRefIn "teamids" teams check || unknownRefIn "integrationids" integrations check

theorem unknownRefIn_eq_false_of_validateRefs (fieldName tableTag : String)
    (table : List (String × Int)) (check : Dict)
    (h : validateRefs fieldName tableTag table check = Except.ok ()) :
    unknownRefIn fieldName table check = false := by
  unfold validateRefs at h
  cases hv : dlookup check fieldName with
  | none => simp [unknownRefIn, hv]
  | some v =>
      rw [hv] at h
      cases v with
      | scalar s => simp at h
      | list ks =>
          simp only [unknownRefIn, hv]
          by_cases hall : (ks.all fun k => refOk table k) = true
          · simp [hall]
          · simp [hall] at h

theorem validateCheck_ok_no_unknownRef (teams integrations : List (String × Int))
    (check : Dict)
    (h : validateCheck teams integrations check = Except.ok ()) :
    hasUnknownRef teams integrations check = false := by
  unfold validateCheck at h
  cases h1 : validateMandatory check with
  | error e => rw [h1] at h; simp at h
  | ok u =>
      rw [h1] at h
      cases h2 : validateRefs "teamids" "teams" teams check with
      | error e => rw [h2] at h; simp at h
      | ok u2 =>
          rw [h2] at h
          simp only [] at h
          cases u2
          unfold hasUnknownRef
          rw [unknownRefIn_eq_false_of_validateRefs "teamids" "teams" teams check h2,
            unknownRefIn_eq_false_of_validateRefs "integrationids" "integrations"
              integrations check (by simpa using h)]
          rfl

theorem validateChecks_ok_all (dflt : Option Dict) (teams integrations : List (String × Int))
    (cs : List Dict) (c : Dict)
    (h : validateChecks dflt teams integrations cs = Except.ok ()) (hc : c ∈ cs) :
    validateCheck teams integrations (mergeD dflt c) = Except.ok () := by
  induction cs with
  | nil => cases hc
  | cons c0 rest ih =>
      unfold validateChecks at h
      cases h0 : validateCheck teams integrations (mergeD dflt c0) with
      | error e => rw [h0] at h; simp at h
      | ok u =>
          rw [h0] at h
          simp only [] at h
          cases hc with
          | head => cases u; exact h0
          | tail _ hmem => exact ih (by simpa using h) hmem

theorem dlookup_resolveTagsStep_ne (tag : String) (check res : Dict) (k : String)
    (h : k ≠ "tags") (hres : resolveTagsStep tag check = Except.ok res) :
    dlookup res k = dlookup check k := by
  unfold resolveTagsStep at hres
  cases hv : dlookup check "tags" with
  | none =>
      rw [hv] at hres
      simp only [] at hres
      cases hres
      rfl
  | some v =>
      rw [hv] at hres
      simp only [] at hres
      cases he : v.elems with
      | none => rw [he] at hres; simp only [] at hres; cases hres
      | some ts =>
          rw [he] at hres
          simp only [] at hres
          cases hres
          exact dlookup_dinsert_ne check "tags" k _ h

theorem resolveTagsStep_some_eq (tag : String) (check : Dict) (v : Val)
    (ts : List Scalar) (h : dlookup check "tags" = some v) (he : v.elems = some ts) :
    resolveTagsStep tag check
      = Except.ok (dinsert check "tags" (Val.scalar (Scalar.str (tagsCsv tag ts)))) := by
  unfold resolveTagsStep
  rw [h]
  simp [he]

theorem resolveTagsStep_of_absent (tag : String) (check : Dict)
    (h : dlookup check "tags" = none) :
    resolveTagsStep tag check = Except.ok check := by
  unfold resolveTagsStep
  rw [h]

theorem dlookup_resolveIdsStep_ne (fieldName : String) (table : List (String × Int))
    (check res : Dict) (k : String) (h : k ≠ fieldName)
    (hres : resolveIdsStep fieldName table check = Except.ok res) :
    dlookup res k = dlookup check k := by
  unfold resolveIdsStep at hres
  cases hv : dlookup check fieldName with
  | none =>
      rw [hv] at hres
      simp only [] at hres
      cases hres
      rfl
  | some v =>
      rw [hv] at hres
      simp only [] at hres
      cases he : v.elems with
      | none => rw [he] at hres; simp only [] at hres; cases hres
      | some ks =>
          rw [he] at hres
          simp only [] at hres
          cases hres
          exact dlookup_dinsert_ne check fieldName k _ h

theorem resolveIdsStep_some_eq (fieldName : String) (table : List (String × Int))
    (check : Dict) (v : Val) (ks : List Scalar)
    (h : dlookup check fieldName = some v) (he : v.elems = some ks) :
    resolveIdsStep fieldName table check
      = Except.ok (dinsert check fieldName (Val.scalar (Scalar.str (idsCsv table ks)))) := by
  unfold resolveIdsStep
  rw [h]
  simp [he]

theorem resolveIdsStep_of_absent (fieldName : String) (table : List (String × Int))
    (check : Dict) (h : dlookup check fieldName = none) :
    resolveIdsStep fieldName table check = Except.ok check := by
  unfold resolveIdsStep
  rw [h]

theorem resolveTagsStep_ok_of_iterable (tag : String) (check : Dict)
    (h : fieldIterable "tags" check = true) :
    ∃ c1, resolveTagsStep tag check = Except.ok c1 := by
  unfold fieldIterable at h
  cases hv : dlookup check "tags" with
  | none => exact ⟨check, resolveTagsStep_of_absent tag check hv⟩
  | some v =>
      rw [hv] at h
      simp only [] at h
      cases he : v.elems with
      | none => rw [he] at h; simp at h
      | some ts => exact ⟨_, resolveTagsStep_some_eq tag check v ts hv he⟩

theorem resolveIdsStep_ok_of_iterable (fieldName : String) (table : List (String × Int))
    (check : Dict) (h : fieldIterable fieldName check = true) :
    ∃ c1, resolveIdsStep fieldName table check = Except.ok c1 := by
  unfold fieldIterable at h
  cases hv : dlookup check fieldName with
  | none => exact ⟨check, resolveIdsStep_of_absent fieldName table check hv⟩
  | some v =>
      rw [hv] at h
      simp only [] at h
      cases he : v.elems with
      | none => rw [he] at h; simp at h
      | some ks => exact ⟨_, resolveIdsStep_some_eq fieldName table check v ks hv he⟩

theorem resolveCheck_eq_of_steps (tag : String) (teams integrations : List (String × Int))
    (check c1 c2 res : Dict)
    (h1 : resolveTagsStep tag check = Except.ok c1)
    (h2 : resolveIdsStep "teamids" teams c1 = Except.ok c2)
    (h3 : resolveIdsStep "integrationids" integrations c2 = Except.ok res) :
    resolveCheck tag teams integrations check = Except.ok res := by
  unfold resolveCheck
  rw [h1]
  simp only []
  rw [h2]
  simp only []
  exact h3

theorem resolveCheck_ok_inv (tag : String) (teams integrations : List (String × Int))
    (check res : Dict)
    (hres : resolveCheck tag teams integrations check = Except.ok res) :
    ∃ c1 c2, resolveTagsStep tag check = Except.ok c1 ∧
      resolveIdsStep "teamids" teams c1 = Except.ok c2 ∧
      resolveIdsStep "integrationids" integrations c2 = Except.ok res := by
  unfold resolveCheck at hres
  cases h1 : resolveTagsStep tag check with
  | error e => rw [h1] at hres; simp only [] at hres; cases hres
  | ok c1 =>
      rw [h1] at hres
      simp only [] at hres
      cases h2 : resolveIdsStep "teamids" teams c1 with
      | error e => rw [h2] at hres; simp only [] at hres; cases hres
      | ok c2 =>
          rw [h2] at hres
          simp only [] at hres
          exact ⟨c1, c2, rfl, h2, hres⟩

theorem fieldIterable_congr (fieldName : String) (d d' : Dict)
    (h : dlookup d' fieldName = dlookup d fieldName) :
    fieldIterable fieldName d' = fieldIterable fieldName d := by
  unfold fieldIterable
  rw [h]

/-- Validation requires `teamids`/`integrationids` to be lists when present,
and a list is always iterable. -/
theorem fieldIterable_of_validateRefs (fieldName tableTag : String)
    (table : List (String × Int)) (check : Dict)
    (h : validateRefs fieldName tableTag table check = Except.ok ()) :
    fieldIterable fieldName check = true := by
  unfold validateRefs at h
  unfold fieldIterable
  cases hv : dlookup check fieldName with
  | none => rfl
  | some v =>
      rw [hv] at h
      cases v with
      | scalar s => simp at h
      | list ks => simp [Val.elems]

theorem validateCheck_ok_parts (teams integrations : List (String × Int)) (check : Dict)
    (h : validateCheck teams integrations check = Except.ok ()) :
    validateRefs "teamids" "teams" teams check = Except.ok () ∧
    validateRefs "integrationids" "integrations" integrations check = Except.ok () := by
  unfold validateCheck at h
  cases h1 : validateMandatory check with
  | error e => rw [h1] at h; simp at h
  | ok u =>
      rw [h1] at h
      simp only [] at h
      cases h2 : validateRefs "teamids" "teams" teams check with
      | error e => rw [h2] at h; simp at h
      | ok u2 =>
          rw [h2] at h
          simp only [] at h
          cases u2
          exact ⟨rfl, by simpa using h⟩

/-- A check that passes validation and whose `tags` field, when present, is
iterable resolves without an uncaught `TypeError`: validation supplies the
list-ness of `teamids`/`integrationids`, and `tags` iterability is exactly
the condition validation does not provide. -/
theorem checkResolves_of_valid (tag : String) (teams integrations : List (String × Int))
    (dflt : Option Dict) (c : Dict)
    (hvc : validateCheck teams integrations (mergeD dflt c) = Except.ok ())
    (hit : fieldIterable "tags" (mergeD dflt c) = true) :
    checkResolves tag teams integrations dflt c = true := by
  obtain ⟨hteam, hint⟩ := validateCheck_ok_parts teams integrations (mergeD dflt c) hvc
  obtain ⟨c1, h1⟩ := resolveTagsStep_ok_of_iterable tag (mergeD dflt c) hit
  have hteamIt : fieldIterable "teamids" c1 = true := by
    rw [fieldIterable_congr "teamids" (mergeD dflt c) c1
      (dlookup_resolveTagsStep_ne tag (mergeD dflt c) c1 "teamids" (by decide) h1)]
    exact fieldIterable_of_validateRefs "teamids" "teams" teams (mergeD dflt c) hteam
  obtain ⟨c2, h2⟩ := resolveIdsStep_ok_of_iterable "teamids" teams c1 hteamIt
  have hintIt : fieldIterable "integrationids" c2 = true := by
    rw [fieldIterable_congr "integrationids" c1 c2
        (dlookup_resolveIdsStep_ne "teamids" teams c1 c2 "integrationids" (by decide) h2),
      fieldIterable_congr "integrationids" (mergeD dflt c) c1
        (dlookup_resolveTagsStep_ne tag (mergeD dflt c) c1 "integrationids" (by decide) h1)]
    exact fieldIterable_of_validateRefs "integrationids" "integrations" integrations
      (mergeD dflt c) hint
  obtain ⟨res, h3⟩ := resolveIdsStep_ok_of_iterable "integrationids" integrations c2 hintIt
  unfold checkResolves
  rw [resolveCheck_eq_of_steps tag teams integrations (mergeD dflt c) c1 c2 res h1 h2 h3]

/-! ## Concrete runs used by witnesses and counterexamples -/

/-- A remote check on host `h` tagged `t`, id 1. -/
def rcOne : RemoteCheck := ⟨1, some "h", none, some [⟨"t"⟩]⟩

/-- A remote check on host `h` tagged `t`, id 2. -/
def rcTwo : RemoteCheck := ⟨2, some "h", none, some [⟨"t"⟩]⟩

/-- A remote directory holding two checks that both match host `h` under
tag `t`. -/
def remoteTwo : List RemoteCheck := [rcOne, rcTwo]

/-- A minimal valid declared check on host `h`. -/
def checkH : Dict :=
  [("name", Val.scalar (Scalar.str "n")), ("host", Val.scalar (Scalar.str "h")),
   ("type", Val.scalar (Scalar.str "http"))]

/-- `checkH` as submitted by an update: resolved (a no-op here) and with
`type` removed. -/
def bodyH : Dict :=
  [("name", Val.scalar (Scalar.str "n")), ("host", Val.scalar (Scalar.str "h"))]

/-- A transport in which only the update of remote check 1 fails. -/
def oracleFailUpdateOne : Op → Bool
  | Op.update 1 _ _ => false
  | _ => true

/-- A transport in which every create fails and every update succeeds. -/
def oracleFailCreate : Op → Bool
  | Op.create _ _ => false
  | _ => true

/-- A valid declared check referencing a team name missing from the table. -/
def badTeamsCheck : Dict :=
  [("name", Val.scalar (Scalar.str "n")), ("host", Val.scalar (Scalar.str "h")),
   ("type", Val.scalar (Scalar.str "http")),
   ("teamids", Val.list [Scalar.str "ghost"])]

/-- A valid declared check referencing an integration name missing from the
table. -/
def badIntegrationsCheck : Dict :=
  [("name", Val.scalar (Scalar.str "n")), ("host", Val.scalar (Scalar.str "h")),
   ("type", Val.scalar (Scalar.str "http")),
   ("integrationids", Val.list [Scalar.str "ghost"])]

/-- A check carrying only `tags: ["b", "c"]`. -/
def tagsCheckW : Dict := [("tags", Val.list [Scalar.str "b", Scalar.str "c"])]

/-- A check carrying only `teamids: ["x", "y"]`. -/
def teamsCheckW : Dict := [("teamids", Val.list [Scalar.str "x", Scalar.str "y"])]

/-- A declared check that passes validation (validation never inspects
`tags`) but whose integer `tags` value makes resolution raise. -/
def intTagsCheck : Dict :=
  [("name", Val.scalar (Scalar.str "n2")), ("host", Val.scalar (Scalar.str "h2")),
   ("type", Val.scalar (Scalar.str "http")), ("tags", Val.scalar (Scalar.int 5))]

/-- A check with an integer `tags` value and a resolvable `teamids` list. -/
def intTagsTeamsCheck : Dict :=
  [("tags", Val.scalar (Scalar.int 5)),
   ("teamids", Val.list [Scalar.str "x", Scalar.str "y"])]

/-! ## The claims -/

/-- **C1** (amended).  In a validated run whose checks all have iterable
`tags` fields (a non-iterable `tags` value — which validation never
inspects — makes the program abort mid-run with an uncaught `TypeError`
instead), if a transport failure occurs during any of the update calls for a
declared check, the run-level error flag is set and the run ends with the
AggregateError; processing still reaches every declared check (the trace is
the concatenation of every check's operations in document order), but the
remaining matches of the failing declared check are skipped: its operations
are the updates for its matches up to and including the first failing one,
each submitting the resolved body without `type`. -/
theorem C1_update_failure_no_early_abort (oracle : Op → Bool) (tag : String)
    (teams integrations : List (String × Int)) (dflt : Option Dict)
    (remote : List RemoteCheck) (cs : List Dict) (c : Dict)
    (hvalid : validateChecks dflt teams integrations cs = Except.ok ())
    (hiter : cs.all (fun c' => fieldIterable "tags" (mergeD dflt c')) = true)
    (hc : c ∈ cs)
    (hfail : ∃ m ∈ checkMatches tag dflt remote c,
        oracle (Op.update m.id (checkHost dflt c)
            (checkUpdateBody tag teams integrations dflt c)) = false) :
    (process_configuration_yaml oracle tag teams integrations dflt remote cs).2
        = some aggregateErrorMessage ∧
    (process_configuration_yaml oracle tag teams integrations dflt remote cs).1
        = (cs.map (fun c' =>
            checkOps oracle tag teams integrations dflt remote c')).flatten ∧
    checkOps oracle tag teams integrations dflt remote c
        = (((checkMatches tag dflt remote c).takeWhile fun m =>
              oracle (Op.update m.id (checkHost dflt c)
                (checkUpdateBody tag teams integrations dflt c))) ++
            ((checkMatches tag dflt remote c).dropWhile fun m =>
              oracle (Op.update m.id (checkHost dflt c)
                (checkUpdateBody tag teams integrations dflt c))).take 1).map
          (fun m => Op.update m.id (checkHost dflt c)
            (checkUpdateBody tag teams integrations dflt c)) := by
  have hall : cs.all (fun c' => checkResolves tag teams integrations dflt c') = true := by
    rw [List.all_eq_true] at hiter ⊢
    intro c' hc'
    exact checkResolves_of_valid tag teams integrations dflt c'
      (validateChecks_ok_all dflt teams integrations cs c' hvalid hc')
      (hiter c' hc')
  have hrc : checkResolves tag teams integrations dflt c = true :=
    List.all_eq_true.mp hall c hc
  obtain ⟨m, hm, hmf⟩ := hfail
  have hne : checkMatches tag dflt remote c ≠ [] := by
    intro h0; rw [h0] at hm; cases hm
  have herr : checkErr oracle tag teams integrations dflt remote c = true := by
    rw [checkErr_any_of_resolves oracle tag teams integrations dflt remote c hrc]
    exact List.any_eq_true.mpr ⟨m, hm, by simp [hmf]⟩
  have hrun := processRun_eq_of_resolves oracle tag teams integrations dflt remote cs hall
  have hanyerr :
      cs.any (fun c' => checkErr oracle tag teams integrations dflt remote c') = true :=
    List.any_eq_true.mpr ⟨c, hc, herr⟩
  refine ⟨?_, ?_, ?_⟩
  · simp only [process_configuration_yaml, hrun, hanyerr]
    rfl
  · simp only [process_configuration_yaml, hrun]
  · unfold checkResolves at hrc
    cases hres : resolveCheck tag teams integrations (mergeD dflt c) with
    | error e => rw [hres] at hrc; simp at hrc
    | ok rchk =>
        rw [checkUpdateBody_eq_of_resolved tag teams integrations dflt c rchk hres,
          checkOps_eq_of_resolved oracle tag teams integrations dflt remote c rchk hres,
          if_neg (fun h0 => hne (List.length_eq_zero.mp h0)),
          updateLoop_eq]

/-- **C1** counterexample.  One declared check with two matching remote
checks; the first update fails.  The error flag is set and the run ends with
the AggregateError, but the second match receives no update call — the
remaining matches of the failing declared check are not attempted, refuting
the claimed continuation across the matches of one check. -/
theorem C1_counterexample :
    checkMatches "t" none remoteTwo checkH = [rcOne, rcTwo] ∧
    oracleFailUpdateOne (Op.update 1 "h" bodyH) = false ∧
    process_configuration_yaml oracleFailUpdateOne "t" [] [] none remoteTwo [checkH]
      = ([Op.update 1 "h" bodyH], some aggregateErrorMessage) :=
  ⟨by decide, by decide, by decide⟩

/-- **C1** witness: the amended theorem applied to the concrete failing run. -/
theorem C1_witness :
    (process_configuration_yaml oracleFailUpdateOne "t" [] [] none remoteTwo [checkH]).2
      = some aggregateErrorMessage :=
  (C1_update_failure_no_early_abort oracleFailUpdateOne "t" [] [] none remoteTwo
    [checkH] checkH (by rfl) (by decide) (by decide) (by decide)).1

/-- **C2**.  With a non-empty requested tag list, the matcher returns exactly
the host-candidates whose (detail-tag, requested-tag) pair count equals the
requested length — membership is the count criterion and candidate order is
preserved — and the duplicate-detail-tag example `[{name:"a"},{name:"a"}]`
against `["a"]` counts 2 ≠ 1 and is excluded. -/
theorem C2_count_based_tag_match (host : String) (ts : List String)
    (checks : List RemoteCheck) (hne : ts ≠ []) :
    find_matching_checks host (some ts) checks
        = (hostFilter (lowerStr host) checks).filter (matchesTags ts) ∧
    (∀ c : RemoteCheck,
        c ∈ find_matching_checks host (some ts) checks ↔
          c ∈ hostFilter (lowerStr host) checks ∧ matchesTags ts c = true) ∧
    List.Sublist (find_matching_checks host (some ts) checks)
      (hostFilter (lowerStr host) checks) ∧
    tagMatchCount [⟨"a"⟩, ⟨"a"⟩] ["a"] = 2 ∧
    matchesTags ["a"] ⟨7, some "h", none, some [⟨"a"⟩, ⟨"a"⟩]⟩ = false := by
  have hlen : ¬ts.length = 0 := fun h0 => hne (List.length_eq_zero.mp h0)
  have hmain : find_matching_checks host (some ts) checks
      = (hostFilter (lowerStr host) checks).filter (matchesTags ts) := by
    simp only [find_matching_checks]
    by_cases h0 : (hostFilter (lowerStr host) checks).length = 0
    · rw [if_pos h0, List.length_eq_zero.mp h0]
      rfl
    · rw [if_neg h0]
      exact if_neg hlen
  refine ⟨hmain, ?_, ?_, by decide, by decide⟩
  · intro c
    rw [hmain]
    exact List.mem_filter
  · rw [hmain]
    exact List.filter_sublist _

/-- **C2** witness: the theorem applied at a concrete non-empty tag list. -/
theorem C2_witness : tagMatchCount [⟨"a"⟩, ⟨"a"⟩] ["a"] = 2 :=
  (C2_count_based_tag_match "h" ["a"] [] (by decide)).2.2.2.1

/-- **C3** (amended).  In a validated run whose checks all have iterable
`tags` fields (a non-iterable `tags` value makes the program abort with an
uncaught `TypeError` before reaching the aggregate decision), a create-call
failure leaves the run-level error flag untouched while an update-call
failure sets it: the terminal AggregateError is raised exactly when some
update call for some declared check failed. -/
theorem C3_error_flag_asymmetry (oracle : Op → Bool) (tag : String)
    (teams integrations : List (String × Int)) (dflt : Option Dict)
    (remote : List RemoteCheck) (cs : List Dict)
    (hvalid : validateChecks dflt teams integrations cs = Except.ok ())
    (hiter : cs.all (fun c' => fieldIterable "tags" (mergeD dflt c')) = true) :
    (process_configuration_yaml oracle tag teams integrations dflt remote cs).2
        = some aggregateErrorMessage
      ↔ ∃ c ∈ cs, ∃ m ∈ checkMatches tag dflt remote c,
          oracle (Op.update m.id (checkHost dflt c)
            (checkUpdateBody tag teams integrations dflt c)) = false := by
  have hall : cs.all (fun c' => checkResolves tag teams integrations dflt c') = true := by
    rw [List.all_eq_true] at hiter ⊢
    intro c' hc'
    exact checkResolves_of_valid tag teams integrations dflt c'
      (validateChecks_ok_all dflt teams integrations cs c' hvalid hc')
      (hiter c' hc')
  have hrun := processRun_eq_of_resolves oracle tag teams integrations dflt remote cs hall
  have hiff : ∀ b : Bool,
      ((if b = true then some aggregateErrorMessage else none)
          = some aggregateErrorMessage) ↔ b = true := by
    intro b; cases b <;> simp
  have hsnd : (process_configuration_yaml oracle tag teams integrations dflt remote cs).2
      = (if (cs.any (fun c' => checkErr oracle tag teams integrations dflt remote c'))
            = true
         then some aggregateErrorMessage else none) := by
    simp only [process_configuration_yaml, hrun]
  rw [hsnd, hiff, List.any_eq_true]
  constructor
  · rintro ⟨c, hc, hcerr⟩
    rw [checkErr_any_of_resolves oracle tag teams integrations dflt remote c
      (List.all_eq_true.mp hall c hc)] at hcerr
    obtain ⟨m, hm, hmp⟩ := List.any_eq_true.mp hcerr
    exact ⟨c, hc, m, hm, by simpa using hmp⟩
  · rintro ⟨c, hc, m, hm, hmf⟩
    refine ⟨c, hc, ?_⟩
    rw [checkErr_any_of_resolves oracle tag teams integrations dflt remote c
      (List.all_eq_true.mp hall c hc)]
    exact List.any_eq_true.mpr ⟨m, hm, by simp [hmf]⟩

/-- **C3** counterexample.  A validated run: the first declared check has two
matches and its first update fails, the second check carries an integer
`tags` value (which validation never inspects).  An update call failed, yet
the run ends with the uncaught `TypeError` of the second check rather than
the AggregateError, refuting the claimed "AggregateError iff some update
failed" over all runs. -/
theorem C3_counterexample :
    validateChecks none [] [] [checkH, intTagsCheck] = Except.ok () ∧
    rcOne ∈ checkMatches "t" none remoteTwo checkH ∧
    checkUpdateBody "t" [] [] none checkH = bodyH ∧
    oracleFailUpdateOne (Op.update 1 "h" bodyH) = false ∧
    process_configuration_yaml oracleFailUpdateOne "t" [] [] none remoteTwo
        [checkH, intTagsCheck]
      = ([Op.update 1 "h" bodyH], some typeErrorNotIterable) ∧
    typeErrorNotIterable ≠ aggregateErrorMessage :=
  ⟨by rfl, by decide, by decide, by decide, by decide, by decide⟩

/-- **C3** witness: a run whose only operation is a failing create ends
without the AggregateError. -/
theorem C3_witness :
    (process_configuration_yaml oracleFailCreate "t" [] [] none [] [checkH]).2
      ≠ some aggregateErrorMessage := by
  intro h
  have hex := (C3_error_flag_asymmetry oracleFailCreate "t" [] [] none [] [checkH]
      (by rfl) (by decide)).mp h
  exact
    (by decide :
      ¬∃ c ∈ [checkH], ∃ m ∈ checkMatches "t" none ([] : List RemoteCheck) c,
        oracleFailCreate (Op.update m.id (checkHost none c)
          (checkUpdateBody "t" [] [] none c)) = false) hex

/-- **C4** (amended).  Whenever identity resolution completes — it raises an
uncaught `TypeError` instead when a present `tags` value is not iterable,
since validation never inspects `tags` — it serializes list fields to
comma-joined strings with no trailing comma, preserving declared order:
`tags: ["b","c"]` with reconciliation tag `"t"` becomes the string
`"t,b,c"`, `teamids: ["x","y"]` with table `{x:1, y:2}` becomes `"1,2"`,
and an absent `tags` field is not added. -/
theorem C4_identity_serialization :
    (∀ (teams integrations : List (String × Int)) (check res : Dict),
        dlookup check "tags" = some (Val.list [Scalar.str "b", Scalar.str "c"]) →
        resolveCheck "t" teams integrations check = Except.ok res →
        dlookup res "tags" = some (Val.scalar (Scalar.str "t,b,c"))) ∧
    (∀ (tag : String) (integrations : List (String × Int)) (check res : Dict),
        dlookup check "teamids" = some (Val.list [Scalar.str "x", Scalar.str "y"]) →
        resolveCheck tag [("x", 1), ("y", 2)] integrations check = Except.ok res →
        dlookup res "teamids" = some (Val.scalar (Scalar.str "1,2"))) ∧
    (∀ (tag : String) (teams integrations : List (String × Int)) (check res : Dict),
        dcontains check "tags" = false →
        resolveCheck tag teams integrations check = Except.ok res →
        dcontains res "tags" = false) := by
  refine ⟨?_, ?_, ?_⟩
  · intro teams integrations check res h hres
    obtain ⟨c1, c2, h1, h2, h3⟩ :=
      resolveCheck_ok_inv "t" teams integrations check res hres
    rw [resolveTagsStep_some_eq "t" check _ [Scalar.str "b", Scalar.str "c"] h rfl] at h1
    cases h1
    rw [dlookup_resolveIdsStep_ne "integrationids" integrations c2 res "tags"
        (by decide) h3,
      dlookup_resolveIdsStep_ne "teamids" teams _ c2 "tags" (by decide) h2,
      dlookup_dinsert_self]
    decide
  · intro tag integrations check res h hres
    obtain ⟨c1, c2, h1, h2, h3⟩ :=
      resolveCheck_ok_inv tag [("x", 1), ("y", 2)] integrations check res hres
    have lt : dlookup c1 "teamids" = some (Val.list [Scalar.str "x", Scalar.str "y"]) := by
      rw [dlookup_resolveTagsStep_ne tag check c1 "teamids" (by decide) h1]
      exact h
    rw [resolveIdsStep_some_eq "teamids" [("x", 1), ("y", 2)] c1 _
        [Scalar.str "x", Scalar.str "y"] lt rfl] at h2
    cases h2
    rw [dlookup_resolveIdsStep_ne "integrationids" integrations _ res "teamids"
        (by decide) h3,
      dlookup_dinsert_self]
    decide
  · intro tag teams integrations check res h hres
    obtain ⟨c1, c2, h1, h2, h3⟩ :=
      resolveCheck_ok_inv tag teams integrations check res hres
    have h0 : dlookup check "tags" = none := by
      cases hv : dlookup check "tags" with
      | none => rfl
      | some v =>
          unfold dcontains at h
          rw [hv] at h
          simp at h
    rw [resolveTagsStep_of_absent tag check h0] at h1
    cases h1
    unfold dcontains
    rw [dlookup_resolveIdsStep_ne "integrationids" integrations c2 res "tags"
        (by decide) h3,
      dlookup_resolveIdsStep_ne "teamids" teams check c2 "tags" (by decide) h2,
      h0]
    rfl

/-- **C4** counterexample.  A check with `teamids: ["x","y"]` and an integer
`tags` value (which validation never inspects): identity resolution raises
the `TypeError` at the `tags` iteration instead of producing a resolved
check with `teamids = "1,2"`, refuting the unconditional claim. -/
theorem C4_counterexample :
    dlookup intTagsTeamsCheck "teamids"
        = some (Val.list [Scalar.str "x", Scalar.str "y"]) ∧
    resolveCheck "t" [("x", 1), ("y", 2)] [] intTagsTeamsCheck
        = Except.error typeErrorNotIterable :=
  ⟨by decide, by rfl⟩

/-- **C4** witness: the amended theorem applied to concrete checks whose
resolution completes. -/
theorem C4_witness :
    dlookup ([("tags", Val.scalar (Scalar.str "t,b,c"))] : Dict) "tags"
        = some (Val.scalar (Scalar.str "t,b,c")) ∧
    dlookup ([("teamids", Val.scalar (Scalar.str "1,2"))] : Dict) "teamids"
        = some (Val.scalar (Scalar.str "1,2")) ∧
    dcontains ([("teamids", Val.scalar (Scalar.str "1,2"))] : Dict) "tags" = false :=
  ⟨C4_identity_serialization.1 [] [] tagsCheckW _ (by decide) (by rfl),
   C4_identity_serialization.2.1 "tg" [] teamsCheckW _ (by decide) (by rfl),
   C4_identity_serialization.2.2 "tg" [("x", 1), ("y", 2)] [] teamsCheckW _
     (by decide) (by rfl)⟩

/-- **C5**.  Only the query host is lower-cased; remote `host`/`hostname`
values are compared by exact string equality unmodified.  A check
contributes one candidate entry per matching field, so it appears twice when
both fields equal the normalized query; `Example.COM` matches a remote check
with host `example.com`, while an upper-case remote value does not match. -/
theorem C5_host_normalization :
    (∀ (q : String) (checks : List RemoteCheck),
        find_matching_checks q none checks = hostFilter (lowerStr q) checks) ∧
    (∀ (q : String) (c : RemoteCheck) (rest : List RemoteCheck),
        hostFilter q (c :: rest)
          = ((if c.host? = some q then [c] else []) ++
              (if c.hostname? = some q then [c] else [])) ++ hostFilter q rest) ∧
    find_matching_checks "Example.COM" none [⟨7, some "example.com", none, none⟩]
      = [⟨7, some "example.com", none, none⟩] ∧
    find_matching_checks "Example.COM" none [⟨7, some "Example.COM", none, none⟩] = [] ∧
    find_matching_checks "Example.COM" none
        [⟨7, some "example.com", some "example.com", none⟩]
      = [⟨7, some "example.com", some "example.com", none⟩,
         ⟨7, some "example.com", some "example.com", none⟩] := by
  refine ⟨?_, ?_, by decide, by decide, by decide⟩
  · intro q checks
    simp only [find_matching_checks]
    by_cases h0 : (hostFilter (lowerStr q) checks).length = 0
    · rw [if_pos h0, List.length_eq_zero.mp h0]
    · rw [if_neg h0]
  · intro q c rest
    rfl

/-- **C6**.  The body submitted in the PUT request of `update_check` never
contains a `type` key, also when the supplied configuration contained one. -/
theorem C6_update_body_has_no_type (check_id : Nat) (configuration : Dict)
    (respStatus : Nat) (respContent : String) :
    dcontains (update_check check_id configuration respStatus respContent).body "type"
      = false :=
  dcontains_derase_self configuration "type"

/-- **C7**.  Default merging is idempotent and never overwrites a key already
present in the check. -/
theorem C7_default_merge_algebra :
    (∀ c d : Dict, applyDefaults (applyDefaults c d) d = applyDefaults c d) ∧
    (∀ (c d : Dict) (k : String), dcontains c k = true →
        dlookup (applyDefaults c d) k = dlookup c k) :=
  ⟨applyDefaults_idem, fun c d k h => dlookup_applyDefaults_of_contains d c k h⟩

/-- **C7** witness: the theorem applied to a concrete check and default. -/
theorem C7_witness :
    applyDefaults (applyDefaults checkH [("x", Val.scalar (Scalar.int 1))])
        [("x", Val.scalar (Scalar.int 1))]
      = applyDefaults checkH [("x", Val.scalar (Scalar.int 1))] ∧
    dlookup (applyDefaults checkH [("host", Val.scalar (Scalar.str "o"))]) "host"
      = dlookup checkH "host" :=
  ⟨C7_default_merge_algebra.1 checkH [("x", Val.scalar (Scalar.int 1))],
   C7_default_merge_algebra.2 checkH [("host", Val.scalar (Scalar.str "o"))] "host"
     (by decide)⟩

/-- **C8**.  A document containing a check whose `teamids` or
`integrationids` references a name absent from its table never validates;
when validation fails, the main flow issues no remote operation; and the
raised message names the offending reference field and its source tag. -/
theorem C8_unknown_reference (dflt : Option Dict)
    (teams integrations : List (String × Int)) (cs : List Dict) (c : Dict)
    (hc : c ∈ cs)
    (hbad : hasUnknownRef teams integrations (mergeD dflt c) = true) :
    validateChecks dflt teams integrations cs ≠ Except.ok () ∧
    (∀ inp : RunInput,
        validateChecks inp.dflt inp.teams inp.integrations inp.checks ≠ Except.ok () →
        (runMain inp).1 = []) ∧
    validateChecks none [] [] [badTeamsCheck]
      = Except.error "Configuration Error: Unknown `teamids` name specified in check, ensure ID defined in `pingdom.teams` tag" ∧
    validateChecks none [] [] [badIntegrationsCheck]
      = Except.error "Configuration Error: Unknown `integrationids` name specified in check, ensure ID defined in `pingdom.integrations` tag" := by
  refine ⟨?_, ?_, by rfl, by rfl⟩
  · intro hok
    have hfalse := validateCheck_ok_no_unknownRef teams integrations (mergeD dflt c)
      (validateChecks_ok_all dflt teams integrations cs c hok hc)
    rw [hfalse] at hbad
    cases hbad
  · intro inp hne
    unfold runMain
    cases hv : validateChecks inp.dflt inp.teams inp.integrations inp.checks with
    | error e => rfl
    | ok u =>
        cases u
        exact absurd hv hne

/-- **C8** witness: the theorem applied to the concrete bad-reference
document. -/
theorem C8_witness : validateChecks none [] [] [badTeamsCheck] ≠ Except.ok () :=
  (C8_unknown_reference none [] [] [badTeamsCheck] badTeamsCheck (by decide)
    (by decide)).1

/-- **C9**.  `get_checks` returns the cached sequence without a transport
call when the cache is set and caching is enabled; the first successful call
stores the parsed list in the cache; a non-200 response raises immediately
after the single transport call and leaves the cache unset. -/
theorem C9_get_checks_caching (resp : ChecksResponse) (st : PingdomState) (b : Bool) :
    (∀ cached : List RemoteCheck, st.get_checks_cache = some cached →
        get_checks true resp st = (Except.ok cached, st, 0)) ∧
    (st.get_checks_cache = none → resp.status = 200 →
        get_checks b resp st
          = (Except.ok (resp.body.getD []),
             { get_checks_cache := some (resp.body.getD []) }, 1)) ∧
    (st.get_checks_cache = none → resp.status ≠ 200 →
        get_checks b resp st = (Except.error resp.content, st, 1)) := by
  obtain ⟨cache⟩ := st
  refine ⟨?_, ?_, ?_⟩
  · intro cached h
    have h' : cache = some cached := h
    subst h'
    rfl
  · intro h h200
    have h' : cache = none := h
    subst h'
    cases b <;> simp [get_checks, h200]
  · intro h hs
    have h' : cache = none := h
    subst h'
    cases b <;> simp [get_checks, hs]

/-- **C9** witness: the theorem applied to concrete responses and states. -/
theorem C9_witness :
    get_checks true ⟨200, some [rcOne], "listing"⟩ { get_checks_cache := none }
      = (Except.ok [rcOne], { get_checks_cache := some [rcOne] }, 1) ∧
    get_checks true ⟨500, some [rcOne], "server error"⟩ { get_checks_cache := none }
      = (Except.error "server error", { get_checks_cache := none }, 1) ∧
    get_checks true ⟨200, some [rcOne], "listing"⟩ { get_checks_cache := some [rcTwo] }
      = (Except.ok [rcTwo], { get_checks_cache := some [rcTwo] }, 0) :=
  ⟨(C9_get_checks_caching ⟨200, some [rcOne], "listing"⟩ ⟨none⟩ true).2.1 rfl rfl,
   (C9_get_checks_caching ⟨500, some [rcOne], "server error"⟩ ⟨none⟩ true).2.2 rfl
     (by decide),
   (C9_get_checks_caching ⟨200, some [rcOne], "listing"⟩ ⟨some [rcTwo]⟩ true).1
     [rcTwo] rfl⟩

/-- **C10**.  `update_check` mutates the caller's dictionary in place: after
any call — including one that fails with a transport error — the dictionary
is exactly the input without `type`, every other key's binding unchanged. -/
theorem C10_update_mutates_in_place (check_id : Nat) (configuration : Dict)
    (respStatus : Nat) (respContent : String) :
    (update_check check_id configuration respStatus respContent).config
        = derase configuration "type" ∧
    dcontains (update_check check_id configuration respStatus respContent).config "type"
        = false ∧
    (∀ k : String, k ≠ "type" →
        dlookup (update_check check_id configuration respStatus respContent).config k
          = dlookup configuration k) ∧
    (respStatus ≠ 200 →
        (update_check check_id configuration respStatus respContent).result
          = Except.error respContent) :=
  ⟨rfl, dcontains_derase_self configuration "type",
   fun k hk => dlookup_derase_ne configuration "type" k hk,
   fun h => if_pos h⟩

/-- **C10** witness: the theorem applied to a concrete failing update whose
configuration carried `type`. -/
theorem C10_witness :
    dlookup (update_check 1 checkH 500 "boom").config "host" = dlookup checkH "host" ∧
    (update_check 1 checkH 500 "boom").result = Except.error "boom" :=
  ⟨(C10_update_mutates_in_place 1 checkH 500 "boom").2.2.1 "host" (by decide),
   (C10_update_mutates_in_place 1 checkH 500 "boom").2.2.2 (by decide)⟩

end Pingdom
